import Mathlib

/-!
Verification of the SkyPilot core excerpt (sky/clouds/aws.py, sky/core.py,
sky/clouds/service_catalog/data_fetchers/fetch_aws.py) against its
natural-language specification.

Python floats are modelled as exact rationals (ℚ); all constants involved
(0.05, 0.07, 0.085, 0.09, powers of two) are exactly representable, and the
inputs used in counterexamples keep every intermediate value exact, so the
rational model agrees with the float computation at those points.
-/

namespace Sky

/-! ## AWS.get_egress_cost (sky/clouds/aws.py lines 211-232) -/

/-- Shallow embedding of `AWS.get_egress_cost`.  The Python code mutates
`num_gigabytes` and accumulates `cost`; the successive `let`s mirror that
mutation (the trailing `+ 0.0` mirrors the final `cost += 0.0`). -/
def get_egress_cost (num_gigabytes : ℚ) : ℚ :=
  if num_gigabytes > 150 * 1024 then 0.05 * num_gigabytes
  else
    let cost : ℚ := 0
    let cost := if num_gigabytes ≥ 50 * 1024 then
        cost + (num_gigabytes - 50 * 1024) * 0.07 else cost
    let g1 := if num_gigabytes ≥ 50 * 1024 then num_gigabytes - 50 * 1024
        else num_gigabytes
    let cost := if g1 ≥ 10 * 1024 then cost + (g1 - 10 * 1024) * 0.085 else cost
    let g2 := if g1 ≥ 10 * 1024 then g1 - 10 * 1024 else g1
    let cost := if g2 > 1 then cost + (g2 - 1) * 0.09 else cost
    cost + 0.0

/-- The branch path taken by `get_egress_cost` on input `g`: the values of the
four conditions of the code, the latter two evaluated on the shrunken
remaining volume exactly as the code does. -/
def egressBranch (g : ℚ) : Bool × Bool × Bool × Bool :=
  let g1 := if g ≥ 50 * 1024 then g - 50 * 1024 else g
  let g2 := if g1 ≥ 10 * 1024 then g1 - 10 * 1024 else g1
  (decide (g > 150 * 1024), decide (g ≥ 50 * 1024),
   decide (g1 ≥ 10 * 1024), decide (g2 > 1))

/-- Tiered reference definition transcribed from the specification's words:
above `150×1024` the flat rate `0.05·g` applies; otherwise bracket rates of
`0.07` (portion above `50×1024`), then `0.085` (portion of the remainder above
`10×1024`), then `0.09` (remainder above `1`) are consumed top-down, the
remaining volume shrinking after each bracket. -/
def egressCostSpec (g : ℚ) : ℚ :=
  if g > 150 * 1024 then 0.05 * g
  else
    let c1 := if g ≥ 50 * 1024 then (g - 50 * 1024) * 0.07 else 0
    let r1 := if g ≥ 50 * 1024 then g - 50 * 1024 else g
    let c2 := if r1 ≥ 10 * 1024 then (r1 - 10 * 1024) * 0.085 else 0
    let r2 := if r1 ≥ 10 * 1024 then r1 - 10 * 1024 else r1
    let c3 := if r2 > 1 then (r2 - 1) * 0.09 else 0
    c1 + c2 + c3

/-- C1 (counterexample): the claim "get_egress_cost is monotonic
non-decreasing" is false at the concrete pair `g1 = 10239`, `g2 = 10240`:
the cost drops from `10238 × 0.09 = 921.42` to `0` when the volume crosses
the `10×1024` bracket boundary. -/
theorem get_egress_cost_not_monotone :
    (0 : ℚ) ≤ 10239 ∧ (10239 : ℚ) ≤ 10240 ∧
      ¬ get_egress_cost 10239 ≤ get_egress_cost 10240 := by
  refine ⟨by norm_num, by norm_num, ?_⟩
  norm_num [get_egress_cost]

/-- C1 (amended): `get_egress_cost` is monotonic non-decreasing on every set
of volumes taking the same branch path through the code (the same pricing
segment); globally it is not monotone, dropping at the internal bracket
boundaries. -/
theorem get_egress_cost_mono_on_branch (a b : ℚ) (h0 : 0 ≤ a) (hab : a ≤ b)
    (hbr : egressBranch a = egressBranch b) :
    get_egress_cost a ≤ get_egress_cost b := by
  simp only [egressBranch, Prod.mk.injEq, decide_eq_decide] at hbr
  obtain ⟨h1, h2, h3, h4⟩ := hbr
  simp only [get_egress_cost]
  by_cases hA : a > 150 * 1024
  · rw [if_pos hA, if_pos (h1.mp hA)]
    linarith
  have hA' : ¬ b > 150 * 1024 := fun h => hA (h1.mpr h)
  rw [if_neg hA, if_neg hA']
  by_cases hB : a ≥ 50 * 1024
  · have hB' : b ≥ 50 * 1024 := h2.mp hB
    simp only [if_pos hB, if_pos hB'] at h3 h4 ⊢
    by_cases hC : a - 50 * 1024 ≥ 10 * 1024
    · have hC' : b - 50 * 1024 ≥ 10 * 1024 := h3.mp hC
      simp only [if_pos hC, if_pos hC'] at h4 ⊢
      by_cases hD : a - 50 * 1024 - 10 * 1024 > 1
      · simp only [if_pos hD, if_pos (h4.mp hD)]
        linarith
      · have hD' : ¬ b - 50 * 1024 - 10 * 1024 > 1 := fun h => hD (h4.mpr h)
        simp only [if_neg hD, if_neg hD']
        linarith
    · have hC' : ¬ b - 50 * 1024 ≥ 10 * 1024 := fun h => hC (h3.mpr h)
      simp only [if_neg hC, if_neg hC'] at h4 ⊢
      by_cases hD : a - 50 * 1024 > 1
      · simp only [if_pos hD, if_pos (h4.mp hD)]
        linarith
      · have hD' : ¬ b - 50 * 1024 > 1 := fun h => hD (h4.mpr h)
        simp only [if_neg hD, if_neg hD']
        linarith
  · have hB' : ¬ b ≥ 50 * 1024 := fun h => hB (h2.mpr h)
    simp only [if_neg hB, if_neg hB'] at h3 h4 ⊢
    by_cases hC : a ≥ 10 * 1024
    · have hC' : b ≥ 10 * 1024 := h3.mp hC
      simp only [if_pos hC, if_pos hC'] at h4 ⊢
      by_cases hD : a - 10 * 1024 > 1
      · simp only [if_pos hD, if_pos (h4.mp hD)]
        linarith
      · have hD' : ¬ b - 10 * 1024 > 1 := fun h => hD (h4.mpr h)
        simp only [if_neg hD, if_neg hD']
        linarith
    · have hC' : ¬ b ≥ 10 * 1024 := fun h => hC (h3.mpr h)
      simp only [if_neg hC, if_neg hC'] at h4 ⊢
      by_cases hD : a > 1
      · simp only [if_pos hD, if_pos (h4.mp hD)]
        linarith
      · have hD' : ¬ b > 1 := fun h => hD (h4.mpr h)
        simp only [if_neg hD, if_neg hD']
        linarith

/-- C1 (witness for the amended theorem): `3` and `5` take the same branch
path, so the cost is monotone between them. -/
theorem get_egress_cost_mono_on_branch_witness :
    get_egress_cost 3 ≤ get_egress_cost 5 :=
  get_egress_cost_mono_on_branch 3 5 (by norm_num) (by norm_num)
    (by norm_num [egressBranch])

/-- C2: for every non-negative volume `g`, `get_egress_cost g` equals the
tiered reference definition transcribed from the spec, and the particular
values `get_egress_cost 0 = 0`, `get_egress_cost 1 = 0`, and
`get_egress_cost 200000 = 10000` hold. -/
theorem get_egress_cost_eq_spec (g : ℚ) (hg : 0 ≤ g) :
    get_egress_cost g = egressCostSpec g ∧
      get_egress_cost 0 = 0 ∧ get_egress_cost 1 = 0 ∧
      get_egress_cost 200000 = 10000 := by
  refine ⟨?_, by norm_num [get_egress_cost], by norm_num [get_egress_cost],
    by norm_num [get_egress_cost]⟩
  simp only [get_egress_cost, egressCostSpec]
  split_ifs <;> ring

/-- C2 (witness): instantiated at the concrete volume `12345`. -/
theorem get_egress_cost_eq_spec_witness :
    get_egress_cost 12345 = egressCostSpec 12345 ∧
      get_egress_cost 0 = 0 ∧ get_egress_cost 1 = 0 ∧
      get_egress_cost 200000 = 10000 :=
  get_egress_cost_eq_spec 12345 (by norm_num)

/-! ## AWS.check_credentials / AWS.get_current_user_identity
(sky/clouds/aws.py lines 336-414)

The environment the function probes (presence of `~/.aws/credentials`,
whether `aws configure list` exits zero, whether `boto3`/`botocore` import,
and the outcome of the STS `get_caller_identity` call) is modelled as an
explicit state record; a raised Python exception is modelled as the
`Except.error` constructor. -/

/-- Outcome of the STS `get_caller_identity` call, one constructor per
`except` clause of `get_current_user_identity`. -/
inductive IdentityOutcome
  | ok (user_id : String)
  | noCredentialsError
  | clientError
  | tokenRetrievalError
  | otherException (reason : String)

/-- The environment state `check_credentials` depends on. -/
structure AwsCheckEnv where
  boto3_importable : Bool
  credentials_file_exists : Bool
  aws_cli_ok : Bool
  identity : IdentityOutcome

/-- `AWS._STATIC_CREDENTIAL_HELP_STR`. -/
def STATIC_CREDENTIAL_HELP_STR : String :=
  "Run the following commands: $ pip install boto3  $ aws configure  " ++
  "For more info: https://docs.aws.amazon.com/cli/latest/userguide/cli-configure-quickstart.html"

/-- `AWS._SSO_CREDENTIAL_HELP_STR`. -/
def SSO_CREDENTIAL_HELP_STR : String :=
  "Run the following commands (must use aws v2 CLI): $ aws configure sso  " ++
  "$ aws sso login --profile <profile_name>  For more info: " ++
  "https://docs.aws.amazon.com/cli/latest/userguide/cli-configure-sso.html"

/-- `AWS.get_current_user_identity`: returns the STS user id, or raises
`CloudUserIdentityError` (modelled as `Except.error` carrying the message)
with a distinct remediation text per failure kind. -/
def get_current_user_identity (env : AwsCheckEnv) : Except String String :=
  match env.identity with
  | .ok user_id => .ok user_id
  | .noCredentialsError =>
      .error ("AWS credentials are not set. " ++ STATIC_CREDENTIAL_HELP_STR)
  | .clientError =>
      .error ("Failed to access AWS services with credentials. " ++
        "Make sure that the access and secret keys are correct. " ++
        STATIC_CREDENTIAL_HELP_STR)
  | .tokenRetrievalError =>
      .error ("AWS access token is expired. " ++ SSO_CREDENTIAL_HELP_STR)
  | .otherException reason =>
      .error ("Failed to get AWS user. Reason: " ++ reason ++ ".")

/-- A Python exception escaping `check_credentials`. -/
inductive PyError
  | importError (msg : String)

/-- `AWS.check_credentials`: the `Except.error` case is the `raise
ImportError(...)` path; every other path returns the `(ok, diagnostic)`
pair. -/
def check_credentials (env : AwsCheckEnv) :
    Except PyError (Bool × Option String) :=
  if env.boto3_importable = false then
    .error (.importError
      "Fail to import dependencies for AWS.Try pip install skypilot[aws]")
  else if env.credentials_file_exists = false then
    .ok (false, some ("~/.aws/credentials does not exist. " ++
      STATIC_CREDENTIAL_HELP_STR))
  else if env.aws_cli_ok = false then
    .ok (false, some ("AWS CLI is not installed properly. " ++
      "Run the following commands in the SkyPilot codebase: " ++
      "$ pip install .[aws]  Credentials may also need to be set. " ++
      STATIC_CREDENTIAL_HELP_STR))
  else
    match get_current_user_identity env with
    | .error e => .ok (false, some e)
    | .ok _ => .ok (true, none)

/-- C3 (counterexample): in the environment where the `boto3`/`botocore`
dependencies fail to import, `check_credentials` raises `ImportError`
instead of returning a pair, so "never raises" is false. -/
theorem check_credentials_raises_on_import_failure :
    check_credentials
        { boto3_importable := false, credentials_file_exists := true,
          aws_cli_ok := true, identity := .ok "user" } =
      .error (.importError
        "Fail to import dependencies for AWS.Try pip install skypilot[aws]") :=
  rfl

/-- C3 (amended): whenever the AWS dependencies import successfully,
`check_credentials` returns a pair `(ok, diagnostic)` for every environment
state (credentials file absent, CLI broken, identity check failing), and on
failure `ok` is `False` with a non-empty diagnostic string; only a missing
`boto3`/`botocore` dependency raises (`ImportError`). -/
theorem check_credentials_returns_pair (env : AwsCheckEnv)
    (h : env.boto3_importable = true) :
    ∃ ok diag, check_credentials env = .ok (ok, diag) ∧
      (ok = false → ∃ s, diag = some s ∧ s ≠ "") := by
  obtain ⟨b, cred, cli, idout⟩ := env
  subst h
  cases cred <;> cases cli <;> cases idout <;>
    simp [check_credentials, get_current_user_identity,
      STATIC_CREDENTIAL_HELP_STR, SSO_CREDENTIAL_HELP_STR] <;>
    intro hcontra <;>
    have hd := congrArg String.data hcontra <;>
    simp [String.data_append] at hd

/-- C3 (witness for the amended theorem): the environment with a missing
credentials file returns a `(False, diagnostic)` pair. -/
theorem check_credentials_returns_pair_witness :
    ∃ ok diag, check_credentials
        { boto3_importable := true, credentials_file_exists := false,
          aws_cli_ok := true, identity := .ok "user" } = .ok (ok, diag) ∧
      (ok = false → ∃ s, diag = some s ∧ s ≠ "") :=
  check_credentials_returns_pair
    { boto3_importable := true, credentials_file_exists := false,
      aws_cli_ok := true, identity := .ok "user" } rfl

/-! ## AWS.get_feasible_launchable_resources (sky/clouds/aws.py lines 297-334) -/

/-- Cloud tag carried by a `Resources` object; the excerpt only constructs
`AWS()`. -/
inductive CloudTag
  | aws
deriving DecidableEq

/-- `resources_lib.Resources`, restricted to the fields the excerpt reads.
The Python `accelerators` dict is asserted to have exactly one entry
(`assert len(accelerators) == 1`), so it is modelled as an optional single
`(name, count)` pair. -/
structure Resources where
  cloud : Option CloudTag
  instance_type : Option String
  accelerators : Option (String × Nat)
  use_spot : Bool
deriving DecidableEq

/-- One row of the static instance catalog, restricted to the columns the
accelerator lookup needs. -/
structure CatalogEntry where
  instance_type : String
  accelerator_name : String
  accelerator_count : Nat
deriving DecidableEq

/-- Distance of a suggestion's accelerator count from the requested count. -/
def countDist (requested : Nat) (s : String × Nat) : Nat :=
  ((s.2 : Int) - (requested : Int)).natAbs

/-- Ordering of near-miss suggestions by ascending distance from the
requested count. -/
def distRel (requested : Nat) (a b : String × Nat) : Prop :=
  countDist requested a ≤ countDist requested b

instance (c : Nat) : DecidableRel (distRel c) := fun a b =>
  inferInstanceAs (Decidable (countDist c a ≤ countDist c b))

instance (c : Nat) : IsTotal (String × Nat) (distRel c) :=
  ⟨fun _ _ => Nat.le_total _ _⟩

instance (c : Nat) : IsTrans (String × Nat) (distRel c) :=
  ⟨fun _ _ _ h1 h2 => Nat.le_trans h1 h2⟩

/-- Modelled from the spec: `service_catalog.get_instance_type_for_accelerator`
is repository code outside the excerpt (only its caller is shown).  Per §4.1
it "looks up instance types supporting the named accelerator at the requested
count; if none match, returns an empty candidate list plus a list of
near-miss (accelerator, count) suggestions, ordered by increasing distance
from the requested count" (near miss = same accelerator at a different
count, per the glossary). -/
def get_instance_type_for_accelerator (catalog : List CatalogEntry)
    (acc_name : String) (acc_count : Nat) :
    Option (List String) × List (String × Nat) :=
  let exact := catalog.filter fun e =>
    e.accelerator_name == acc_name && e.accelerator_count == acc_count
  if exact.isEmpty then
    let near := (catalog.filter fun e => e.accelerator_name == acc_name).map
      fun e => (e.accelerator_name, e.accelerator_count)
    (none, List.insertionSort (distRel acc_count) near)
  else (some (exact.map fun e => e.instance_type), [])

/-- `AWS.get_default_instance_type`. -/
def get_default_instance_type : String := "m6i.2xlarge"

/-- The inner `_make` helper of `get_feasible_launchable_resources`. -/
def «_make» (resources : Resources) (instance_list : List String) :
    List Resources :=
  instance_list.map fun instance_type =>
    { resources with
      cloud := some CloudTag.aws,
      instance_type := some instance_type,
      accelerators := none }

/-- `AWS.get_feasible_launchable_resources`.  The Python asserts
(`resources.is_launchable()`, single-entry accelerator dict) are checks on
already-established invariants and are not modelled as behaviour. -/
def get_feasible_launchable_resources (catalog : List CatalogEntry)
    (resources : Resources) : List Resources × List (String × Nat) :=
  let fuzzy_candidate_list : List (String × Nat) := []
  match resources.instance_type with
  | some _ => ([{ resources with accelerators := none }], fuzzy_candidate_list)
  | none =>
    match resources.accelerators with
    | none =>
        («_make» resources [get_default_instance_type], fuzzy_candidate_list)
    | some (acc, acc_count) =>
      match get_instance_type_for_accelerator catalog acc acc_count with
      | (none, fuzzy) => ([], fuzzy)
      | (some instance_list, fuzzy) => («_make» resources instance_list, fuzzy)

/-- C6: a request naming a concrete instance type is returned as the sole
candidate with its accelerator annotation cleared and an empty fuzzy list;
a request with no instance type and no accelerators yields a single
candidate with the default instance type. -/
theorem feasible_resources_concrete_and_default
    (catalog : List CatalogEntry) (r : Resources) :
    (∀ it, r.instance_type = some it →
      get_feasible_launchable_resources catalog r =
        ([{ r with accelerators := none }], [])) ∧
    (r.instance_type = none → r.accelerators = none →
      get_feasible_launchable_resources catalog r =
        ([{ r with
            cloud := some CloudTag.aws,
            instance_type := some get_default_instance_type,
            accelerators := none }], [])) := by
  constructor
  · intro it hit
    simp [get_feasible_launchable_resources, hit]
  · intro h1 h2
    simp [get_feasible_launchable_resources, h1, h2, «_make»]

/-- C6 (witness): both branches at concrete requests. -/
theorem feasible_resources_concrete_and_default_witness :
    get_feasible_launchable_resources []
        { cloud := none, instance_type := some "p3.2xlarge",
          accelerators := some ("V100", 1), use_spot := false } =
      ([{ cloud := none, instance_type := some "p3.2xlarge",
          accelerators := none, use_spot := false }], []) ∧
    get_feasible_launchable_resources []
        { cloud := none, instance_type := none,
          accelerators := none, use_spot := false } =
      ([{ cloud := some CloudTag.aws,
          instance_type := some get_default_instance_type,
          accelerators := none, use_spot := false }], []) :=
  ⟨(feasible_resources_concrete_and_default []
      { cloud := none, instance_type := some "p3.2xlarge",
        accelerators := some ("V100", 1), use_spot := false }).1
      "p3.2xlarge" rfl,
   (feasible_resources_concrete_and_default []
      { cloud := none, instance_type := none,
        accelerators := none, use_spot := false }).2 rfl rfl⟩

/-- A catalog listing only a V100 instance. -/
def catalogV100 : List CatalogEntry :=
  [{ instance_type := "p3.2xlarge", accelerator_name := "V100",
     accelerator_count := 1 }]

/-- An accelerator request for a K80, absent from `catalogV100`. -/
def requestK80 : Resources :=
  { cloud := none, instance_type := none,
    accelerators := some ("K80", 1), use_spot := false }

/-- C7 (counterexample): a request for an accelerator the catalog does not
list at any count gets an *empty* fuzzy-suggestion list, so the claimed
non-emptiness fails. -/
theorem fuzzy_candidates_empty_for_unknown_accelerator :
    (get_feasible_launchable_resources catalogV100 requestK80).1 = [] ∧
    (get_feasible_launchable_resources catalogV100 requestK80).2 = [] :=
  ⟨rfl, rfl⟩

/-- C7 (amended): for every accelerator request whose exact (accelerator,
count) pair has no catalog match, the resolver returns an empty candidate
list together with near-miss (accelerator, count) suggestions ordered by
ascending distance from the requested count; the suggestion list is
non-empty provided the catalog lists the named accelerator at some count. -/
theorem fuzzy_candidates_sorted (catalog : List CatalogEntry) (r : Resources)
    (acc : String) (cnt : Nat)
    (hit : r.instance_type = none)
    (hacc : r.accelerators = some (acc, cnt))
    (hnoexact : catalog.filter (fun e =>
      e.accelerator_name == acc && e.accelerator_count == cnt) = [])
    (hnear : ∃ e ∈ catalog, e.accelerator_name = acc) :
    (get_feasible_launchable_resources catalog r).1 = [] ∧
    (get_feasible_launchable_resources catalog r).2 ≠ [] ∧
    List.Sorted (distRel cnt) (get_feasible_launchable_resources catalog r).2
    := by
  have hres : get_feasible_launchable_resources catalog r =
      ([], List.insertionSort (distRel cnt)
        ((catalog.filter fun e => e.accelerator_name == acc).map
          fun e => (e.accelerator_name, e.accelerator_count))) := by
    simp [get_feasible_launchable_resources, hit, hacc,
      get_instance_type_for_accelerator, hnoexact]
  rw [hres]
  refine ⟨rfl, ?_, List.sorted_insertionSort _ _⟩
  obtain ⟨e, he, hename⟩ := hnear
  have hmem : (e.accelerator_name, e.accelerator_count) ∈
      (catalog.filter fun e => e.accelerator_name == acc).map
        fun e => (e.accelerator_name, e.accelerator_count) :=
    List.mem_map_of_mem _ (List.mem_filter.mpr ⟨he, by simp [hename]⟩)
  exact List.ne_nil_of_mem ((List.mem_insertionSort _).mpr hmem)

/-- C7 (witness for the amended theorem): a request for 4 V100s against a
catalog holding V100 entries at counts 1 and 8 yields no candidate and a
sorted, non-empty suggestion list. -/
theorem fuzzy_candidates_sorted_witness :
    (get_feasible_launchable_resources
      [{ instance_type := "p3.2xlarge", accelerator_name := "V100",
         accelerator_count := 1 },
       { instance_type := "p3.16xlarge", accelerator_name := "V100",
         accelerator_count := 8 }]
      { cloud := none, instance_type := none,
        accelerators := some ("V100", 4), use_spot := false }).1 = [] ∧
    (get_feasible_launchable_resources
      [{ instance_type := "p3.2xlarge", accelerator_name := "V100",
         accelerator_count := 1 },
       { instance_type := "p3.16xlarge", accelerator_name := "V100",
         accelerator_count := 8 }]
      { cloud := none, instance_type := none,
        accelerators := some ("V100", 4), use_spot := false }).2 ≠ [] ∧
    List.Sorted (distRel 4)
      (get_feasible_launchable_resources
        [{ instance_type := "p3.2xlarge", accelerator_name := "V100",
           accelerator_count := 1 },
         { instance_type := "p3.16xlarge", accelerator_name := "V100",
           accelerator_count := 8 }]
        { cloud := none, instance_type := none,
          accelerators := some ("V100", 4), use_spot := false }).2 :=
  fuzzy_candidates_sorted _ _ "V100" 4 rfl rfl rfl
    ⟨{ instance_type := "p3.2xlarge", accelerator_name := "V100",
       accelerator_count := 1 }, by simp, rfl⟩

/-! ## AWS._get_image_id / AWS.get_default_ami
(sky/clouds/aws.py lines 118-163)

`service_catalog.get_image_id_from_tag` is an external table lookup (tag,
region) → image id; it is passed in as a function parameter and quantified
over.  A raised `ResourcesUnavailableError` is the `Except.error` case. -/

/-- Python exceptions of the image-resolution paths. -/
inductive AwsError
  | resourcesUnavailableError (msg : String)
  | assertionError (msg : String)

/-- The `image_id` argument of `_get_image_id`: a Python dict whose keys are
regions, optionally with a `None` key giving a region-independent value. -/
structure ImageDict where
  default : Option String
  per_region : List (String × String)

/-- `AWS._get_image_id`. -/
def «_get_image_id» (get_image_id_from_tag : String → String → Option String)
    (image_id : Option ImageDict) (region_name : String) :
    Except AwsError (Option String) :=
  match image_id with
  | none => .ok none
  | some d =>
    let selected : Option String :=
      match d.default with
      | some v => some v
      | none => d.per_region.lookup region_name
    match selected with
    | none => .error (.assertionError "region_name in image_id")
    | some img =>
      if img.startsWith "skypilot:" then
        match get_image_id_from_tag img region_name with
        | none => .error (.resourcesUnavailableError
            ("No image found for region " ++ region_name))
        | some i => .ok (some i)
      else .ok (some img)

/-- `AWS.get_default_ami`.  `get_accelerators_from_instance_type` is an
external catalog lookup, passed in and quantified over; the Python
`assert len(acc) == 1` makes it an optional single pair. -/
def get_default_ami
    (get_image_id_from_tag : String → String → Option String)
    (get_accelerators_from_instance_type : String → Option (String × Nat))
    (region_name instance_type : String) : Except AwsError String :=
  let acc := get_accelerators_from_instance_type instance_type
  let image_id := get_image_id_from_tag "skypilot:gpu-ubuntu-2004" region_name
  let image_id :=
    match acc with
    | some (acc_name, _) =>
        if acc_name = "K80" then
          get_image_id_from_tag "skypilot:k80-ubuntu-2004" region_name
        else image_id
    | none => image_id
  match image_id with
  | some i => .ok i
  | none => .error (.resourcesUnavailableError
      ("No image found in catalog for region " ++ region_name ++
       ". Try setting a valid image_id."))

/-- C8: literal image IDs pass through unchanged; `skypilot:`-tagged
references are looked up per region and fail with
`ResourcesUnavailableError` (the retryable error kind of the failover loop)
when the catalog has no entry for the region; the default-AMI path
substitutes the K80-specific tag for K80 instances and likewise fails with
`ResourcesUnavailableError` when that tag has no entry. -/
theorem image_resolution (cat : String → String → Option String)
    (accOf : String → Option (String × Nat)) (d : ImageDict)
    (region_name s instance_type : String) (n : Nat)
    (hsel : d.default = some s ∨
      (d.default = none ∧ d.per_region.lookup region_name = some s)) :
    (s.startsWith "skypilot:" = false →
      «_get_image_id» cat (some d) region_name = .ok (some s)) ∧
    (s.startsWith "skypilot:" = true →
      (∀ i, cat s region_name = some i →
        «_get_image_id» cat (some d) region_name = .ok (some i)) ∧
      (cat s region_name = none →
        «_get_image_id» cat (some d) region_name =
          .error (.resourcesUnavailableError
            ("No image found for region " ++ region_name)))) ∧
    (accOf instance_type = some ("K80", n) →
      (∀ i, cat "skypilot:k80-ubuntu-2004" region_name = some i →
        get_default_ami cat accOf region_name instance_type = .ok i) ∧
      (cat "skypilot:k80-ubuntu-2004" region_name = none →
        get_default_ami cat accOf region_name instance_type =
          .error (.resourcesUnavailableError
            ("No image found in catalog for region " ++ region_name ++
             ". Try setting a valid image_id.")))) := by
  have hs : (match d.default with
      | some v => some v
      | none => d.per_region.lookup region_name) = some s := by
    rcases hsel with h | ⟨h1, h2⟩
    · simp [h]
    · simp [h1, h2]
  refine ⟨?_, ?_, ?_⟩
  · intro hlit
    simp [«_get_image_id», hs, hlit]
  · intro htag
    refine ⟨?_, ?_⟩
    · intro i hi
      simp [«_get_image_id», hs, htag, hi]
    · intro hnone
      simp [«_get_image_id», hs, htag, hnone]
  · intro hk
    refine ⟨?_, ?_⟩
    · intro i hi
      simp [get_default_ami, hk, hi]
    · intro hnone
      simp [get_default_ami, hk, hnone]

/-- C8 (witness): a literal ID passes through; the tag `skypilot:gpu`
misses an empty catalog and yields `ResourcesUnavailableError`; the K80
default-AMI path likewise errors on an empty catalog. -/
theorem image_resolution_witness :
    «_get_image_id» (fun _ _ => none)
        (some { default := some "ami-123", per_region := [] }) "us-east-1" =
      .ok (some "ami-123") ∧
    get_default_ami (fun _ _ => none) (fun _ => some ("K80", 1))
        "us-east-1" "p2.xlarge" =
      .error (.resourcesUnavailableError
        ("No image found in catalog for region us-east-1" ++
         ". Try setting a valid image_id.")) := by
  have h := image_resolution (fun _ _ => none) (fun _ => some ("K80", 1))
    { default := some "ami-123", per_region := [] }
    "us-east-1" "ami-123" "p2.xlarge" 1 (Or.inl rfl)
  exact ⟨h.1 rfl, (h.2.2 rfl).2 rfl⟩

/-! ## fetch_aws.get_all_regions_instance_types_df
(sky/clouds/service_catalog/data_fetchers/fetch_aws.py lines 158-250)

`_get_instance_types_df` performs AWS API calls; what matters to the
aggregation is only its result per region — either the region name (a
string, signalling failure) or a dataframe.  That per-region outcome is the
`fetch` parameter, quantified over.  A dataframe is a list of rows keyed by
the `InstanceType` and `Region` columns used for the final sort. -/

/-- A row of the aggregated instance-type table, restricted to the sort
keys. -/
structure VmRow where
  instanceType : String
  region : String
deriving DecidableEq

/-- `sort_values(['InstanceType', 'Region'])`: lexicographic order on the
two key columns. -/
def rowLE (a b : VmRow) : Prop :=
  a.instanceType < b.instanceType ∨
    (a.instanceType = b.instanceType ∧ a.region ≤ b.region)

instance : DecidableRel rowLE := fun a b =>
  inferInstanceAs (Decidable (a.instanceType < b.instanceType ∨
    (a.instanceType = b.instanceType ∧ a.region ≤ b.region)))

instance : IsTotal VmRow rowLE where
  total a b := by
    rcases lt_trichotomy a.instanceType b.instanceType with h | h | h
    · exact Or.inl (Or.inl h)
    · rcases le_total a.region b.region with hr | hr
      · exact Or.inl (Or.inr ⟨h, hr⟩)
      · exact Or.inr (Or.inr ⟨h.symm, hr⟩)
    · exact Or.inr (Or.inl h)

instance : IsTrans VmRow rowLE where
  trans a b c hab hbc := by
    rcases hab with h1 | ⟨h1, h1'⟩ <;> rcases hbc with h2 | ⟨h2, h2'⟩
    · exact Or.inl (lt_trans h1 h2)
    · exact Or.inl (h2 ▸ h1)
    · exact Or.inl (h1 ▸ h2)
    · exact Or.inr ⟨h1.trans h2, le_trans h1' h2'⟩

/-- `pandas.concat` raises `ValueError('No objects to concatenate')` when
given an empty list of objects; otherwise it concatenates them. -/
def pd_concat (objs : List (List VmRow)) : Except String (List VmRow) :=
  if objs.isEmpty then .error "No objects to concatenate"
  else .ok objs.flatten

/-- The success results among the per-region fetch outcomes (`isinstance`
filter of the Python loop, which prints and skips the failed regions). -/
def successfulDfs (fetch : String → String ⊕ List VmRow)
    (regions : List String) : List (List VmRow) :=
  (regions.map fetch).filterMap fun df_or_region =>
    match df_or_region with
    | .inl _ => none
    | .inr df => some df

/-- `get_all_regions_instance_types_df`. -/
def get_all_regions_instance_types_df
    (fetch : String → String ⊕ List VmRow) (regions : List String) :
    Except String (List VmRow) :=
  match pd_concat (successfulDfs fetch regions) with
  | .error e => .error e
  | .ok rows => .ok (List.insertionSort rowLE rows)

/-- C9 (counterexample): when every per-region fetch fails, `pd.concat` is
called on an empty list and raises, instead of producing the (empty) table
of successful regions' rows that the claim promises. -/
theorem fetch_all_regions_fail_raises :
    get_all_regions_instance_types_df (fun r => .inl r) ["us-east-1"] =
      .error "No objects to concatenate" :=
  rfl

/-- C9 (amended): for every set of regions where some per-region fetches
fail, provided at least one region's fetch succeeds, the failed regions are
skipped without aborting the others and the aggregate table holds exactly
the successful regions' rows, deterministically sorted by InstanceType then
Region; if every fetch fails, the aggregation itself raises (`pd.concat` on
an empty list of objects). -/
theorem fetch_skips_failures_and_sorts
    (fetch : String → String ⊕ List VmRow) (regions : List String)
    (hsucc : ∃ r ∈ regions, ∃ df, fetch r = Sum.inr df) :
    ∃ rows, get_all_regions_instance_types_df fetch regions = .ok rows ∧
      rows.Perm (successfulDfs fetch regions).flatten ∧
      List.Sorted rowLE rows := by
  obtain ⟨r, hr, df, hdf⟩ := hsucc
  have hmem0 : Sum.inr (α := String) df ∈ regions.map fetch := by
    rw [← hdf]
    exact List.mem_map_of_mem fetch hr
  have hmem : df ∈ successfulDfs fetch regions :=
    List.mem_filterMap.mpr ⟨Sum.inr df, hmem0, rfl⟩
  have hne : (successfulDfs fetch regions).isEmpty = false := by
    rw [List.isEmpty_eq_false]
    exact List.ne_nil_of_mem hmem
  refine ⟨List.insertionSort rowLE (successfulDfs fetch regions).flatten,
    ?_, List.perm_insertionSort _ _, List.sorted_insertionSort _ _⟩
  simp [get_all_regions_instance_types_df, pd_concat, hne]

/-- C9 (witness for the amended theorem): one failing and one succeeding
region. -/
theorem fetch_skips_failures_and_sorts_witness :
    ∃ rows, get_all_regions_instance_types_df
        (fun r => if r = "us-east-1" then
            Sum.inr [{ instanceType := "m6i.2xlarge", region := "us-east-1" }]
          else Sum.inl r)
        ["af-south-1", "us-east-1"] = .ok rows ∧
      rows.Perm (successfulDfs
        (fun r => if r = "us-east-1" then
            Sum.inr [{ instanceType := "m6i.2xlarge", region := "us-east-1" }]
          else Sum.inl r)
        ["af-south-1", "us-east-1"]).flatten ∧
      List.Sorted rowLE rows :=
  fetch_skips_failures_and_sorts
    (fun r => if r = "us-east-1" then
        Sum.inr [{ instanceType := "m6i.2xlarge", region := "us-east-1" }]
      else Sum.inl r)
    ["af-south-1", "us-east-1"]
    ⟨"us-east-1", by simp,
     [{ instanceType := "m6i.2xlarge", region := "us-east-1" }], by simp⟩

/-! ## sky/core.py: _start, start, stop

The persistent cluster table (`global_user_state` /
`backend_utils.refresh_cluster_status_handle`) is modelled as an explicit
association list from cluster name to record.  The backend object returned
by `backend_utils.get_backend_from_handle`, the reserved-name list
`backend_utils.SKY_RESERVED_CLUSTER_NAMES`, the constants of `sky.spot`,
and the predicate `tpu_utils.is_tpu_vm_pod` live outside the excerpt; they
are fields of a `CoreEnv` record and quantified over.  A raised Python
exception is the `Except.error` case. -/

/-- `global_user_state.ClusterStatus`. -/
inductive ClusterStatus
  | INIT
  | UP
  | STOPPED
deriving DecidableEq

/-- A backend resource handle: the launched resources and node count that
`_start` re-provisions with, plus the head IP its callers read. -/
structure ResourceHandle where
  launched_resources : Resources
  launched_nodes : Nat
  head_ip : Option String
deriving DecidableEq

/-- One row of the cluster table. -/
structure ClusterRecord where
  status : ClusterStatus
  handle : ResourceHandle
deriving DecidableEq

/-- The cluster table. -/
abbrev GlobalState := List (String × ClusterRecord)

/-- Cluster lookup (`refresh_cluster_status_handle` /
`get_handle_from_cluster_name`): `none` models the Python `None` handle for
a nonexistent cluster. -/
def lookupCluster (st : GlobalState) (name : String) : Option ClusterRecord :=
  (st.find? fun p => p.1 == name).map (·.2)

/-- The backend object: its class (`CloudVmRayBackend` or not) and the
operations `_start`/`stop` invoke on it, as opaque state transformers. -/
structure Backend where
  is_cloud_vm_ray : Bool
  name : String
  provision : ResourceHandle → Bool → GlobalState → ResourceHandle × GlobalState
  set_autostop : ResourceHandle → Int → Bool → GlobalState → GlobalState
  teardown : ResourceHandle → Bool → Bool → GlobalState → GlobalState

/-- The collaborators of core.py that live outside the excerpt. -/
structure CoreEnv where
  get_backend_from_handle : ResourceHandle → Backend
  SKY_RESERVED_CLUSTER_NAMES : List String
  SPOT_CONTROLLER_NAME : String
  SPOT_CONTROLLER_IDLE_MINUTES_TO_AUTOSTOP : Int
  is_tpu_vm_pod : Resources → Bool

/-- Python exceptions raised by the core.py operations. -/
inductive CoreError
  | valueError (msg : String)
  | notSupportedError (msg : String)
  | assertionError (msg : String)
deriving DecidableEq

/-- `sky.core._start`.  The already-UP branch executes the bare Python
`return`, modelled as `.ok (none, st)`: it yields `None` and leaves the
state untouched. -/
def «_start» (env : CoreEnv) (st : GlobalState) (cluster_name : String)
    (idle_minutes_to_autostop : Option Int) (retry_until_up : Bool)
    (down : Bool) (force : Bool) :
    Except CoreError (Option ResourceHandle × GlobalState) :=
  match lookupCluster st cluster_name with
  | none => .error (.valueError
      ("Cluster " ++ cluster_name ++ " does not exist."))
  | some record =>
    if force = false ∧ record.status = .UP then
      .ok (none, st)
    else if ¬(force = true ∨ record.status = .INIT ∨
        record.status = .STOPPED) then
      .error (.assertionError "cluster_status")
    else
      let backend := env.get_backend_from_handle record.handle
      if backend.is_cloud_vm_ray = false then
        .error (.notSupportedError ("Starting cluster " ++ cluster_name ++
          " with backend " ++ backend.name ++ " is not supported."))
      else if cluster_name = env.SPOT_CONTROLLER_NAME ∧ down = true then
        .error (.valueError
          ("Using autodown (rather than autostop) is not supported for " ++
           "the spot controller. Pass down=False or omit it instead."))
      else if cluster_name = env.SPOT_CONTROLLER_NAME ∧
          idle_minutes_to_autostop ≠ none then
        .error (.valueError
          ("Passing a custom autostop setting is currently not supported " ++
           "when starting the spot controller."))
      else
        let idle := if cluster_name = env.SPOT_CONTROLLER_NAME then
            some env.SPOT_CONTROLLER_IDLE_MINUTES_TO_AUTOSTOP
          else idle_minutes_to_autostop
        let provisioned := backend.provision record.handle retry_until_up st
        match idle with
        | some m => .ok (some provisioned.1,
            backend.set_autostop provisioned.1 m down provisioned.2)
        | none => .ok (some provisioned.1, provisioned.2)

/-- `sky.core.start` (the public entrypoint): validates the
`down`/`idle_minutes_to_autostop` combination before calling `_start`. -/
def start (env : CoreEnv) (st : GlobalState) (cluster_name : String)
    (idle_minutes_to_autostop : Option Int) (retry_until_up : Bool)
    (down : Bool) (force : Bool) :
    Except CoreError (Option ResourceHandle × GlobalState) :=
  if down = true ∧ idle_minutes_to_autostop = none then
    .error (.valueError
      "idle_minutes_to_autostop must be set if down is True.")
  else
    «_start» env st cluster_name idle_minutes_to_autostop retry_until_up
      down force

/-- `sky.core.stop`. -/
def stop (env : CoreEnv) (st : GlobalState) (cluster_name : String)
    (purge : Bool) : Except CoreError GlobalState :=
  if cluster_name ∈ env.SKY_RESERVED_CLUSTER_NAMES then
    .error (.notSupportedError ("Stopping sky reserved cluster " ++
      cluster_name ++ " is not supported."))
  else
    match lookupCluster st cluster_name with
    | none => .error (.valueError
        ("Cluster " ++ cluster_name ++ " does not exist."))
    | some record =>
      if env.is_tpu_vm_pod record.handle.launched_resources = true then
        .error (.notSupportedError ("Stopping cluster " ++ cluster_name ++
          " with TPU VM Pod is not supported."))
      else
        let backend := env.get_backend_from_handle record.handle
        if backend.is_cloud_vm_ray = true ∧
            record.handle.launched_resources.use_spot = true then
          .error (.notSupportedError ("Stopping cluster " ++ cluster_name ++
            "... skipped. Stopping spot instances is not supported as " ++
            "the attached disks will be lost."))
        else
          .ok (backend.teardown record.handle false purge st)

/-- A CloudVmRay backend whose operations leave the state unchanged except
for recording the provisioned handle. -/
def backendCVR : Backend :=
  { is_cloud_vm_ray := true, name := "cloudvmray",
    provision := fun h _ st => (h, st),
    set_autostop := fun _ _ _ st => st,
    teardown := fun _ _ _ st => st }

/-- A non-CloudVmRay backend (e.g. a local backend). -/
def backendLocal : Backend :=
  { is_cloud_vm_ray := false, name := "local",
    provision := fun h _ st => (h, st),
    set_autostop := fun _ _ _ st => st,
    teardown := fun _ _ _ st => st }

/-- The handle of an on-demand AWS cluster. -/
def handleUp : ResourceHandle :=
  { launched_resources :=
      { cloud := some CloudTag.aws, instance_type := some "m6i.2xlarge",
        accelerators := none, use_spot := false },
    launched_nodes := 1, head_ip := some "10.0.0.1" }

/-- A concrete environment with the CloudVmRay backend. -/
def envCVR : CoreEnv :=
  { get_backend_from_handle := fun _ => backendCVR,
    SKY_RESERVED_CLUSTER_NAMES := ["sky-spot-controller"],
    SPOT_CONTROLLER_NAME := "sky-spot-controller",
    SPOT_CONTROLLER_IDLE_MINUTES_TO_AUTOSTOP := 10,
    is_tpu_vm_pod := fun _ => false }

/-- A state with one UP cluster named `mycluster`. -/
def stateUp : GlobalState :=
  [("mycluster", { status := ClusterStatus.UP, handle := handleUp })]

/-- C4: starting an already-UP cluster without `force` is a no-op — the
state comes back unchanged and no provisioning runs — but the bare Python
`return` yields `None` instead of the existing resource handle, which both
`_start`'s return annotation (`-> backends.Backend.ResourceHandle`) and its
caller `spot_queue` (which dereferences the result) expect. -/
theorem start_on_up_cluster_returns_none :
    «_start» envCVR stateUp "mycluster" none false false false =
      .ok (none, stateUp) ∧
    (lookupCluster stateUp "mycluster").map (·.handle) = some handleUp :=
  ⟨rfl, rfl⟩

/-- C5 (counterexample): a spot-backed cluster whose backend is not
`CloudVmRayBackend` is *not* rejected — `stop` proceeds to teardown and
returns normally for either value of `purge`, because the spot check is
guarded by `isinstance(backend, backends.CloudVmRayBackend)`. -/
theorem stop_spot_cluster_accepted_on_non_cvr_backend :
    (let handleSpot : ResourceHandle :=
      { launched_resources :=
          { cloud := some CloudTag.aws, instance_type := some "m6i.2xlarge",
            accelerators := none, use_spot := true },
        launched_nodes := 1, head_ip := none }
     let envLocal : CoreEnv :=
      { get_backend_from_handle := fun _ => backendLocal,
        SKY_RESERVED_CLUSTER_NAMES := ["sky-spot-controller"],
        SPOT_CONTROLLER_NAME := "sky-spot-controller",
        SPOT_CONTROLLER_IDLE_MINUTES_TO_AUTOSTOP := 10,
        is_tpu_vm_pod := fun _ => false }
     let stateSpot : GlobalState :=
      [("spotcluster", { status := ClusterStatus.UP, handle := handleSpot })]
     handleSpot.launched_resources.use_spot = true ∧
       stop envLocal stateSpot "spotcluster" false = .ok stateSpot ∧
       stop envLocal stateSpot "spotcluster" true = .ok stateSpot) :=
  ⟨rfl, rfl, rfl⟩

/-- C5 (amended): `stop` raises `NotSupportedError` — before any state
change and regardless of `purge` — for every reserved cluster name, every
TPU-VM-Pod cluster, and every spot-backed cluster *whose backend is
CloudVmRayBackend* (the spot rejection is conditional on the backend
class). -/
theorem stop_rejects_reserved_tpu_and_cvr_spot (env : CoreEnv)
    (st : GlobalState) (name : String) (purge : Bool)
    (h : name ∈ env.SKY_RESERVED_CLUSTER_NAMES ∨
      ∃ record, lookupCluster st name = some record ∧
        (env.is_tpu_vm_pod record.handle.launched_resources = true ∨
          ((env.get_backend_from_handle record.handle).is_cloud_vm_ray = true ∧
            record.handle.launched_resources.use_spot = true))) :
    ∃ msg, stop env st name purge = .error (.notSupportedError msg) := by
  by_cases hres : name ∈ env.SKY_RESERVED_CLUSTER_NAMES
  · exact ⟨"Stopping sky reserved cluster " ++ name ++ " is not supported.",
      by simp [stop, hres]⟩
  rcases h with h | ⟨record, hrec, hcase⟩
  · exact absurd h hres
  by_cases htpu : env.is_tpu_vm_pod record.handle.launched_resources = true
  · exact ⟨"Stopping cluster " ++ name ++ " with TPU VM Pod is not supported.",
      by simp [stop, hres, hrec, htpu]⟩
  rcases hcase with h | ⟨hcvr, hspot⟩
  · exact absurd h htpu
  exact ⟨"Stopping cluster " ++ name ++
      "... skipped. Stopping spot instances is not supported as " ++
      "the attached disks will be lost.",
    by simp [stop, hres, hrec, htpu, hcvr, hspot]⟩

/-- C5 (witness for the amended theorem): stopping the reserved spot
controller is rejected with `purge = true`. -/
theorem stop_rejects_reserved_witness :
    ∃ msg, stop envCVR stateUp "sky-spot-controller" true =
      .error (.notSupportedError msg) :=
  stop_rejects_reserved_tpu_and_cvr_spot envCVR stateUp
    "sky-spot-controller" true (Or.inl (by simp [envCVR]))

/-- C10: calling `start` with `down = True` and `idle_minutes_to_autostop`
unset raises `ValueError` for every environment and every cluster table —
the check precedes the cluster lookup, so no record is consulted or
mutated. -/
theorem start_down_requires_idle_minutes (env : CoreEnv) (st : GlobalState)
    (cluster_name : String) (retry_until_up force : Bool) :
    start env st cluster_name none retry_until_up true force =
      .error (.valueError
        "idle_minutes_to_autostop must be set if down is True.") := by
  simp [start]

/-- C10 (witness): instantiated at a concrete environment and state. -/
theorem start_down_requires_idle_minutes_witness :
    start envCVR stateUp "mycluster" none false true false =
      .error (.valueError
        "idle_minutes_to_autostop must be set if down is True.") :=
  start_down_requires_idle_minutes envCVR stateUp "mycluster" false false

end Sky
